import Mathlib

/-!
Verification development for `pretty_print.py`, a pretty printer for an
agent CLI's line-delimited JSON stream.  The Python module is embedded
shallowly: every handler of `StreamProcessor` becomes a pure function from
a processor state (`PState`) and a parsed JSON value (`Json`) to an
`Except`-wrapped pair of the new state and the output produced (stdout
chunks and stderr lines).  Python exceptions (`AttributeError` on `.get`
of a non-dict, `TypeError` on `+` of incompatible values, ...) are the
`Except.error` branch.  `json.loads` is an external library function and
is modelled as a parameter `parse : String -> Option Json` of
`process_line`.  Wall-clock time (`datetime.now()`) only feeds the
duration shown in the final banner; `finalize` takes the duration as an
explicit parameter.
-/

/-- JSON values, as produced by Python's `json.loads` for the streams this
program consumes.  Numbers are modelled as integers (the usage counters and
exit codes the program reads are integral); floats are outside the model. -/
inductive Json where
  | null : Json
  | bool (b : Bool) : Json
  | num (n : Int) : Json
  | str (s : String) : Json
  | arr (xs : List Json) : Json
  | obj (kvs : List (String × Json)) : Json

mutual
/-- Structural equality of JSON values (Python `==` on the values this
program compares). -/
def Json.beq : Json → Json → Bool
  | .null, .null => true
  | .bool a, .bool b => a == b
  | .num a, .num b => a == b
  | .str a, .str b => a == b
  | .arr xs, .arr ys => Json.beqList xs ys
  | .obj xs, .obj ys => Json.beqObj xs ys
  | _, _ => false

def Json.beqList : List Json → List Json → Bool
  | [], [] => true
  | x :: xs, y :: ys => Json.beq x y && Json.beqList xs ys
  | _, _ => false

def Json.beqObj : List (String × Json) → List (String × Json) → Bool
  | [], [] => true
  | x :: xs, y :: ys => x.1 == y.1 && Json.beq x.2 y.2 && Json.beqObj xs ys
  | _, _ => false
end

instance : BEq Json := ⟨Json.beq⟩

/-- Python whitespace characters, the set stripped by `str.strip()`. -/
def pyWs (c : Char) : Bool :=
  c = ' ' || c = '\t' || c = '\n' || c = '\r' || c = '\x0b' || c = '\x0c'

/-- Python `s.strip()`: remove leading and trailing whitespace. -/
def pyStrip (s : String) : String :=
  String.mk (((s.toList.dropWhile pyWs).reverse.dropWhile pyWs).reverse)

/-- Python `not s.strip()`: `s` is empty or whitespace-only. -/
def isBlank (s : String) : Bool := s.toList.all pyWs

/-- Fuel-driven worker for `pySplit`: scan left to right, cutting a piece
wherever `sep` is a prefix of the rest, exactly as Python `str.split(sep)`
with a nonempty separator.  The fuel starts above the character count, so
the `0` case is never reached. -/
def splitChAux (sep : List Char) : Nat → List Char → List Char → List (List Char)
  | 0, cs, acc => [acc.reverse ++ cs]
  | f + 1, cs, acc =>
    if sep.isPrefixOf cs && !sep.isEmpty && !cs.isEmpty then
      acc.reverse :: splitChAux sep f (cs.drop sep.length) []
    else
      match cs with
      | [] => [acc.reverse]
      | c :: cs' => splitChAux sep f cs' (c :: acc)

/-- Python `s.split(sep)` for a nonempty separator. -/
def pySplit (s sep : String) : List String :=
  (splitChAux sep.toList (s.toList.length + 1) s.toList []).map (fun cs => String.mk cs)

/-- Python `s.startswith(pat)`. -/
def startsWithPy (s pat : String) : Bool := pat.toList.isPrefixOf s.toList

/-- The ASCII fragment of Python `str.lower()` (the phrases the classifier
searches for are ASCII, so the non-ASCII cases never matter). -/
def pyLowerChar (c : Char) : Char :=
  if 65 ≤ c.toNat ∧ c.toNat ≤ 90 then Char.ofNat (c.toNat + 32) else c

def pyLower (s : String) : String := String.mk (s.toList.map pyLowerChar)

/-- Python `s.replace(pat, rep)` (for nonempty `pat`): rejoin the split
pieces with the replacement. -/
def pyReplace (s pat rep : String) : String :=
  String.intercalate rep (pySplit s pat)

/-- Python `pat in s` (substring containment, for nonempty `pat`):
`s.split(pat)` has more than one piece iff `pat` occurs in `s`. -/
def strContainsSub (s pat : String) : Bool := (pySplit s pat).length != 1

/-- Python truthiness of a JSON value. -/
def Json.isTruthy : Json → Bool
  | .null => false
  | .bool b => b
  | .num n => n != 0
  | .str s => s != ""
  | .arr xs => !xs.isEmpty
  | .obj kvs => !kvs.isEmpty

/-- Python `d.get(k, default)`.  On a non-dict receiver Python raises
`AttributeError`; here that is the error branch. -/
def Json.hget (j : Json) (k : String) (d : Json) : Except String Json :=
  match j with
  | .obj kvs => .ok (((kvs.find? (fun p => p.1 == k)).map Prod.snd).getD d)
  | _ => .error "AttributeError"

/-- Python `k in d` on the tool-input mapping.  The source only reaches this
with a dict (or short-circuits on falsy input); a non-mapping receiver is
the error branch. -/
def Json.hasKey (j : Json) (k : String) : Except String Bool :=
  match j with
  | .obj kvs => .ok (kvs.any (fun p => p.1 == k))
  | _ => .error "TypeError"

/-- A JSON value used where Python requires a `str` (`.lower()`,
`.replace`, `.count`, string concatenation): non-strings raise. -/
def Json.asStr : Json → Except String String
  | .str s => .ok s
  | _ => .error "AttributeError"

/-- Python `len(x)` for sized values. -/
def Json.pyLen : Json → Except String Nat
  | .str s => .ok s.length
  | .arr xs => .ok xs.length
  | .obj kvs => .ok kvs.length
  | _ => .error "TypeError"

mutual
/-- Python `repr` of a JSON-shaped value (used by `str()` on containers).
String escaping inside containers is approximated (no claim exercises it). -/
def pyRepr : Json → String
  | .null => "None"
  | .bool true => "True"
  | .bool false => "False"
  | .num n => toString n
  | .str s => "\x27" ++ s ++ "\x27"
  | .arr xs => "[" ++ pyReprList xs ++ "]"
  | .obj kvs => "\x7b" ++ pyReprObj kvs ++ "\x7d"

def pyReprList : List Json → String
  | [] => ""
  | [x] => pyRepr x
  | x :: xs => pyRepr x ++ ", " ++ pyReprList xs

def pyReprObj : List (String × Json) → String
  | [] => ""
  | [kv] => "\x27" ++ kv.1 ++ "\x27: " ++ pyRepr kv.2
  | kv :: xs => "\x27" ++ kv.1 ++ "\x27: " ++ pyRepr kv.2 ++ ", " ++ pyReprObj xs
end

/-- Python `str(x)` of a JSON-shaped value. -/
def Json.pyStr : Json → String
  | .str s => s
  | j => pyRepr j

/-- Escaping for `json.dumps` string output (approximate: common escapes
only; no claim exercises the fallback that serializes input data). -/
def escapeJsonString (s : String) : String :=
  s.toList.foldl
    (fun acc c =>
      acc ++ (if c = '"' then "\\\"" else if c = '\\' then "\\\\"
              else if c = '\n' then "\\n" else if c = '\t' then "\\t"
              else if c = '\r' then "\\r" else String.mk [c])) ""

mutual
/-- Python `json.dumps(x)` with default separators. -/
def json_dumps : Json → String
  | .null => "null"
  | .bool true => "true"
  | .bool false => "false"
  | .num n => toString n
  | .str s => "\"" ++ escapeJsonString s ++ "\""
  | .arr xs => "[" ++ json_dumps_list xs ++ "]"
  | .obj kvs => "\x7b" ++ json_dumps_obj kvs ++ "\x7d"

def json_dumps_list : List Json → String
  | [] => ""
  | [x] => json_dumps x
  | x :: xs => json_dumps x ++ ", " ++ json_dumps_list xs

def json_dumps_obj : List (String × Json) → String
  | [] => ""
  | [kv] => "\"" ++ escapeJsonString kv.1 ++ "\": " ++ json_dumps kv.2
  | kv :: xs =>
    "\"" ++ escapeJsonString kv.1 ++ "\": " ++ json_dumps kv.2 ++ ", " ++ json_dumps_obj xs
end

/-- Python `x + y` on JSON-shaped values (used for `tokens_in +
tokens_cache_read` at finalize).  Mixed-type additions raise `TypeError`. -/
def pyAdd : Json → Json → Except String Json
  | .num a, .num b => .ok (.num (a + b))
  | .str a, .str b => .ok (.str (a ++ b))
  | .arr a, .arr b => .ok (.arr (a ++ b))
  | _, _ => .error "TypeError"

namespace C

def RESET : String := "\x1b[0m"
def BOLD : String := "\x1b[1m"
def DIM : String := "\x1b[2m"
def ITALIC : String := "\x1b[3m"
def RED : String := "\x1b[31m"
def GREEN : String := "\x1b[32m"
def YELLOW : String := "\x1b[33m"
def BLUE : String := "\x1b[34m"
def MAGENTA : String := "\x1b[35m"
def CYAN : String := "\x1b[36m"
def WHITE : String := "\x1b[37m"
def GRAY : String := "\x1b[90m"
def BG_RED : String := "\x1b[41m"
def BG_YELLOW : String := "\x1b[43m"
def BG_BLUE : String := "\x1b[44m"

end C

/-- The `ICONS` table, insertion order preserved. -/
def ICONS : List (String × String) :=
  [("assistant", "🤖"), ("tool", "🔧"), ("result", "📎"), ("error", "❌"),
   ("rate_limit", "⏱️"), ("thinking", "💭"), ("done", "✅"), ("blocked", "⛔"),
   ("file", "📄"), ("search", "🔍"), ("edit", "✏️"), ("run", "▶️"),
   ("git", "📦"), ("test", "🧪"), ("task", "📋"), ("br", "📋")]

/-- `ICONS[key]`; every lookup in the source uses a present key. -/
def iconOf (k : String) : String :=
  match ICONS.find? (fun p => p.1 == k) with
  | some p => p.2
  | none => ""

/-- The `TOOL_ICONS` table, insertion order preserved. -/
def TOOL_ICONS : List (String × String) :=
  [("read", "📄"), ("view", "📄"), ("cat", "📄"), ("write", "✏️"),
   ("edit", "✏️"), ("str_replace", "✏️"), ("create", "✏️"), ("bash", "▶️"),
   ("shell", "▶️"), ("execute", "▶️"), ("search", "🔍"), ("grep", "🔍"),
   ("rg", "🔍"), ("find", "🔍"), ("glob", "🔍"), ("git", "📦"),
   ("br", "📋"), ("beads", "📋"), ("test", "🧪"), ("pytest", "🧪"),
   ("npm", "📦"), ("node", "📦"), ("todowrite", "📋"), ("todoread", "📋"),
   ("question", "❓")]

/-- `get_tool_icon`: first substring match against `TOOL_ICONS` in table
order, defaulting to `ICONS["tool"]`. -/
def get_tool_icon (tool_name : String) : String :=
  let name_lower := pyLower tool_name
  match TOOL_ICONS.find? (fun p => strContainsSub name_lower p.1) with
  | some p => p.2
  | none => iconOf "tool"

/-- `truncate`: collapse newlines to spaces, strip, then cut with ellipsis.
The source's default `max_len=100` is unused; all call sites pass it. -/
def truncate (s : String) (max_len : Nat) : String :=
  let s := pyStrip (pyReplace s "\n" " ")
  if s.length ≤ max_len then s else s.take (max_len - 3) ++ "..."

/-- `format_tool_result`: smart truncation of tool output.  The source's
default `max_lines=12` is unused (handlers always pass `MAX_LINES`).
`max_lines` is a `Nat`: the callers guard `MAX_LINES == 0` away and the
environment-variable parsing (out of scope) yields non-negative values, so
Python's `int` arithmetic agrees with `Nat` arithmetic on every reachable
call (for `max_lines ≥ 1`, `tail_count = max_lines - head_count - 1 ≥ 0`
never underflows). -/
def format_tool_result (result : String) (max_lines : Nat) : String :=
  if isBlank result then C.DIM ++ "(empty)" ++ C.RESET
  else
    let lines := pySplit result "\n"
    if lines.length ≤ max_lines then result
    else
      let head_count := max_lines / 2
      let tail_count := max_lines - head_count - 1
      let head := lines.take head_count
      let tail := if tail_count > 0 then lines.drop (lines.length - tail_count) else []
      let omitted := lines.length - head_count - tail_count
      String.intercalate "\n"
        (head ++
         [C.DIM ++ "    ... (" ++ toString omitted ++ " lines omitted) ..." ++ C.RESET] ++
         tail)

/-- The inline `if MAX_LINES == 0 then str(output) else
format_tool_result(str(output), MAX_LINES)` choice, duplicated verbatim in
`handle_tool_use` and `handle_tool_finish`, named once here. -/
def render_tool_output (max_lines : Nat) (output : String) : String :=
  if max_lines == 0 then output else format_tool_result output max_lines

/-- The indented, dimmed rendering
`"\n".join(f"  {DIM}{line}{RESET}" for line in formatted.split("\n"))`. -/
def indent_dim (s : String) : String :=
  String.intercalate "\n" ((pySplit s "\n").map (fun l => "  " ++ C.DIM ++ l ++ C.RESET))

/-- `format_tool_input`.  The source's `tool_name` parameter is unused by
its body and omitted here.  Raises where Python would (string methods on
non-strings, `in` on a non-mapping). -/
def format_tool_input (input_data : Json) : Except String String := do
  if !input_data.isTruthy then return ""
  if (← input_data.hasKey "command") then
    let v ← input_data.hget "command" Json.null
    return truncate (← v.asStr) 80
  let p ← input_data.hget "path" Json.null
  let path ← if p.isTruthy then pure p else input_data.hget "file_path" Json.null
  if path.isTruthy then
    if (← input_data.hasKey "content") || (← input_data.hasKey "file_text") ||
        (← input_data.hasKey "newString") then
      let c1 ← input_data.hget "content" Json.null
      let c2 ← if c1.isTruthy then pure c1 else input_data.hget "file_text" Json.null
      let content ← if c2.isTruthy then pure c2 else input_data.hget "newString" (Json.str "")
      let cs ← content.asStr
      let lines := cs.toList.count '\n' + 1
      return path.pyStr ++ " (" ++ toString lines ++ " lines)"
    if (← input_data.hasKey "oldString") || (← input_data.hasKey "old_str") then
      return "editing " ++ path.pyStr
    return path.pyStr
  if (← input_data.hasKey "query") || (← input_data.hasKey "pattern") then
    let q1 ← input_data.hget "query" Json.null
    let query ← if q1.isTruthy then pure q1 else input_data.hget "pattern" (Json.str "")
    return truncate (← query.asStr) 60
  if (← input_data.hasKey "questions") then
    let qs ← input_data.hget "questions" Json.null
    return "asking " ++ toString (← qs.pyLen) ++ " question(s)"
  if (← input_data.hasKey "prompt") then
    let v ← input_data.hget "prompt" Json.null
    return truncate (← v.asStr) 60
  return truncate (json_dumps input_data) 60

/-- The output a call produces: chunks written to standard output (a plain
`print(s)` writes `s ++ "\n"`, `print(s, end="")` writes `s`) and lines
written to the stderr side channel (one entry per `stderr(...)` call). -/
structure Out where
  stdout : List String
  stderr : List String
deriving DecidableEq, Repr

def Out.empty : Out := ⟨[], []⟩

def Out.append (a b : Out) : Out := ⟨a.stdout ++ b.stdout, a.stderr ++ b.stderr⟩

instance : Append Out := ⟨Out.append⟩

/-- `print(s)`. -/
def Out.line (s : String) : Out := ⟨[s ++ "\n"], []⟩

/-- `print(s, end="")`. -/
def Out.chunk (s : String) : Out := ⟨[s], []⟩

/-- `stderr(s)`: one side-channel line. -/
def Out.toErr (s : String) : Out := ⟨[], [s]⟩

/-- The configuration read once at startup: `MAX_LINES` (env
`PRETTY_PRINT_MAX_LINES`, non-negative in the model) and `DEBUG`. -/
structure Config where
  max_lines : Nat
  debug : Bool

/-- The mutable fields of `StreamProcessor`.  `current_tool` holds the
value stored as `{"name": tool_name}` — the dict has exactly that one key,
so only the name value is kept; `none` is Python `None`.  The token fields
of `stats` hold whatever object the last usage report carried (`Json`),
initialized to `0`.  `start_time` is wall-clock and lives outside the
model (`finalize` takes the duration as a parameter). -/
structure PState where
  current_text : String
  in_text_block : Bool
  current_tool : Option Json
  tool_input_buffer : String
  tool_calls : Nat
  tokens_in : Json
  tokens_out : Json
  tokens_reasoning : Json
  tokens_cache_read : Json

/-- `StreamProcessor.__init__` (the DEBUG banner it may print is timing
text only and is not modelled). -/
def initState : PState :=
  { current_text := "", in_text_block := false, current_tool := none,
    tool_input_buffer := "", tool_calls := 0,
    tokens_in := Json.num 0, tokens_out := Json.num 0,
    tokens_reasoning := Json.num 0, tokens_cache_read := Json.num 0 }

/-- `handle_text`. -/
def handle_text (cfg : Config) (s : PState) (part : Json) :
    Except String (PState × Out) := do
  let text ← part.hget "text" (Json.str "")
  if text.isTruthy then
    let dbg :=
      if cfg.debug && !s.in_text_block then
        Out.line (C.DIM ++ "[DEBUG] Text block started (" ++
          toString text.pyStr.length ++ " chars)" ++ C.RESET)
      else Out.empty
    let t ← text.asStr
    return ({ s with current_text := s.current_text ++ t, in_text_block := true },
            dbg ++ Out.chunk text.pyStr)
  else
    return (s, Out.empty)

/-- The tool header line printed by `handle_tool_use`/`handle_tool_start`. -/
def tool_header (icon name formatted : String) : String :=
  if formatted != "" then
    "\n" ++ C.BLUE ++ icon ++ " " ++ name ++ C.RESET ++ " " ++
      C.DIM ++ "-> " ++ formatted ++ C.RESET
  else
    "\n" ++ C.BLUE ++ icon ++ " " ++ name ++ C.RESET

/-- The error rendering shared by `handle_tool_use` (completed, error) and
`handle_tool_finish`: a red `Error:` line and a `TOOL_ERROR:` stderr line. -/
def tool_error_out (output : Json) : Out :=
  Out.line (C.RED ++ iconOf "error" ++ " Error: " ++
    truncate output.pyStr 200 ++ C.RESET) ++
  Out.toErr ("TOOL_ERROR: " ++ output.pyStr)

/-- The non-error output rendering shared by `handle_tool_use` (completed)
and `handle_tool_finish`: nothing unless the output is truthy and non-blank
as a string, else the (possibly truncated) indented dimmed block. -/
def tool_output_out (cfg : Config) (output : Json) : Out :=
  if output.isTruthy && !isBlank output.pyStr then
    Out.line (indent_dim (render_tool_output cfg.max_lines output.pyStr))
  else Out.empty

/-- `handle_tool_use` (combined start/finish format). -/
def handle_tool_use (cfg : Config) (s : PState) (part : Json) :
    Except String (PState × Out) := do
  let state ← part.hget "state" (Json.obj [])
  let status ← state.hget "status" (Json.str "")
  let tool_name ← part.hget "tool" (Json.str "unknown")
  let tool_input ← state.hget "input" (Json.obj [])
  -- End any text block
  let closeOut := if s.in_text_block then Out.line "" else Out.empty
  let s := { s with in_text_block := false }
  -- Print tool start (only once per tool call)
  let startNew : Bool :=
    match s.current_tool with
    | none => true
    | some n => !(n == tool_name)
  let (s, startOut) ←
    if startNew then do
      let name ← tool_name.asStr
      let icon := get_tool_icon name
      let formatted ← format_tool_input tool_input
      let dbg :=
        if cfg.debug then
          Out.line (C.DIM ++ "[DEBUG] Tool started: " ++ tool_name.pyStr ++ C.RESET)
        else Out.empty
      pure ({ s with tool_calls := s.tool_calls + 1, current_tool := some tool_name },
            Out.line (tool_header icon name formatted) ++ dbg)
    else
      pure (s, Out.empty)
  -- Print tool result if status is completed
  if status == Json.str "completed" then
    let output ← state.hget "output" (Json.str "")
    let metadata ← state.hget "metadata" (Json.obj [])
    let errFlag ← metadata.hget "error" (Json.bool false)
    let exitVal ← state.hget "exit" (Json.num 0)
    let is_error := errFlag.isTruthy || !(exitVal == Json.num 0)
    let resOut := if is_error then tool_error_out output else tool_output_out cfg output
    return ({ s with current_tool := none }, closeOut ++ startOut ++ resOut)
  else
    return (s, closeOut ++ startOut)

/-- `handle_tool_start`. -/
def handle_tool_start (cfg : Config) (s : PState) (part : Json) :
    Except String (PState × Out) := do
  -- End any text block
  let closeOut := if s.in_text_block then Out.line "" else Out.empty
  let s := { s with in_text_block := false }
  let t1 ← part.hget "tool" (Json.str "")
  let tool_name ← if t1.isTruthy then pure t1 else part.hget "name" (Json.str "unknown")
  let tool_input ← part.hget "input" (Json.obj [])
  let name ← tool_name.asStr
  let icon := get_tool_icon name
  let formatted ← format_tool_input tool_input
  let dbg :=
    if cfg.debug then
      Out.line (C.DIM ++ "[DEBUG] Tool started: " ++ tool_name.pyStr ++ C.RESET)
    else Out.empty
  return ({ s with tool_calls := s.tool_calls + 1, current_tool := some tool_name },
          closeOut ++ Out.line (tool_header icon name formatted) ++ dbg)

/-- `handle_tool_finish`.  Note: it does not close an open text block. -/
def handle_tool_finish (cfg : Config) (s : PState) (part : Json) :
    Except String (PState × Out) := do
  let output ← part.hget "output" (Json.str "")
  let metadata ← part.hget "metadata" (Json.obj [])
  let errFlag ← metadata.hget "error" (Json.bool false)
  let isErrVal ← part.hget "is_error" (Json.bool false)
  let is_error := errFlag.isTruthy || isErrVal.isTruthy
  let resOut := if is_error then tool_error_out output else tool_output_out cfg output
  return ({ s with current_tool := none }, resOut)

/-- `handle_step_start`: a debug banner only. -/
def handle_step_start (cfg : Config) (s : PState) (_part : Json) :
    Except String (PState × Out) :=
  .ok (s,
    if cfg.debug then
      Out.line ("\n" ++ C.DIM ++ "[DEBUG] Step started (new assistant turn)" ++ C.RESET)
    else Out.empty)

/-- `handle_step_finish`: close any open text block, then overwrite the
token stats with the values of a truthy `tokens` report. -/
def handle_step_finish (cfg : Config) (s : PState) (part : Json) :
    Except String (PState × Out) := do
  let closeOut := if s.in_text_block then Out.line "" else Out.empty
  let s := { s with in_text_block := false }
  let tokens ← part.hget "tokens" (Json.obj [])
  if tokens.isTruthy then
    let tin ← tokens.hget "input" (Json.num 0)
    let tout ← tokens.hget "output" (Json.num 0)
    let treas ← tokens.hget "reasoning" (Json.num 0)
    let cache ← tokens.hget "cache" (Json.obj [])
    let tcache ← cache.hget "read" (Json.num 0)
    let s := { s with tokens_in := tin, tokens_out := tout,
                      tokens_reasoning := treas, tokens_cache_read := tcache }
    let dbg :=
      if cfg.debug then
        Out.line (C.DIM ++ "[DEBUG] Step finished - tokens: in=" ++ tin.pyStr ++
          ", out=" ++ tout.pyStr ++ ", reasoning=" ++ treas.pyStr ++
          ", cache=" ++ tcache.pyStr ++ C.RESET)
      else Out.empty
    return (s, closeOut ++ dbg)
  else
    return (s, closeOut)

/-- `handle_error`. -/
def handle_error (_cfg : Config) (s : PState) (data : Json) :
    Except String (PState × Out) := do
  let e1 ← data.hget "error" (Json.str "")
  let m ← data.hget "message" (Json.str data.pyStr)
  let msg0 := if e1.isTruthy then e1 else m
  let part ← data.hget "part" (Json.obj [])
  let error_msg ←
    if part.isTruthy then do
      let pe ← part.hget "error" (Json.str "")
      pure (if pe.isTruthy then pe else msg0)
    else
      pure msg0
  return (s,
    Out.line ("\n" ++ C.BG_RED ++ C.WHITE ++ " " ++ iconOf "error" ++ " ERROR " ++ C.RESET) ++
    Out.line (C.RED ++ error_msg.pyStr ++ C.RESET) ++
    Out.toErr ("ERROR: " ++ error_msg.pyStr))

/-- `handle_message`: dispatch on `type`, then on nested `part.type`. -/
def handle_message (cfg : Config) (s : PState) (data : Json) :
    Except String (PState × Out) := do
  let msg_type ← data.hget "type" (Json.str "")
  let part ← data.hget "part" (Json.obj [])
  let part_type ← part.hget "type" (Json.str "")
  if msg_type == Json.str "text" then handle_text cfg s part
  else if msg_type == Json.str "tool_use" then handle_tool_use cfg s part
  else if msg_type == Json.str "tool_start" then handle_tool_start cfg s part
  else if msg_type == Json.str "tool_finish" then handle_tool_finish cfg s part
  else if msg_type == Json.str "step_start" then handle_step_start cfg s part
  else if msg_type == Json.str "step_finish" then handle_step_finish cfg s part
  else if msg_type == Json.str "error" then handle_error cfg s data
  else if part_type == Json.str "text" then handle_text cfg s part
  else if part_type == Json.str "tool" then handle_tool_use cfg s part
  else if part_type == Json.str "tool-start" then handle_tool_start cfg s part
  else if part_type == Json.str "tool-finish" then handle_tool_finish cfg s part
  else if msg_type.isTruthy then
    return (s, Out.line (C.DIM ++ "[DEBUG] Unknown message type: " ++
      msg_type.pyStr ++ C.RESET))
  else
    return (s, Out.empty)

/-- `process_line`.  `parse` models the external `json.loads`: `none` is a
raised `json.JSONDecodeError`. -/
def process_line (cfg : Config) (parse : String → Option Json) (s : PState)
    (line : String) : Except String (PState × Out) := do
  let line := pyStrip line
  if line == "" then
    return (s,
      if cfg.debug then Out.line (C.DIM ++ "[DEBUG] Empty line skipped" ++ C.RESET)
      else Out.empty)
  if !(startsWithPy line "\x7b") then
    let lower := pyLower line
    if strContainsSub lower "you\x27ve hit your limit" || strContainsSub lower "rate limit" then
      return (s, Out.line (C.YELLOW ++ iconOf "rate_limit" ++ " " ++ line ++ C.RESET) ++
                 Out.toErr line)
    if strContainsSub lower "error" then
      return (s, Out.line (C.RED ++ line ++ C.RESET) ++ Out.toErr line)
    if cfg.debug then
      return (s, Out.line (C.DIM ++ "[DEBUG] Non-JSON line: " ++ line.take 100 ++ C.RESET))
    else
      return (s, Out.line (C.DIM ++ line ++ C.RESET))
  match parse line with
  | none =>
    if cfg.debug then
      return (s, Out.line (C.DIM ++ "[DEBUG] Failed to parse JSON: " ++
        line.take 100 ++ C.RESET))
    else
      return (s, Out.line (C.DIM ++ line ++ C.RESET))
  | some data => handle_message cfg s data

/-- Fold `handle_message` over a list of already-parsed events,
concatenating their outputs. -/
def processEvents (cfg : Config) (s : PState) (evts : List Json) :
    Except String (PState × Out) :=
  match evts with
  | [] => .ok (s, Out.empty)
  | e :: rest => do
    let (s1, o1) ← handle_message cfg s e
    let (s2, o2) ← processEvents cfg s1 rest
    return (s2, o1 ++ o2)

/-- The output of one iteration of the completion-signal loop at the end
of `finalize`: for a stripped line with a `DONE|`/`BLOCKED|` prefix, the
indicator print, the forwarded stderr line, and the optional debug line;
for any other line, nothing. -/
def signal_line_out (cfg : Config) (l : String) : Out :=
  let l := pyStrip l
  if startsWithPy l "DONE|" then
    Out.line (C.GREEN ++ iconOf "done" ++ " Task completed" ++ C.RESET) ++ Out.toErr l ++
      (if cfg.debug then
        Out.line (C.DIM ++ "[DEBUG] Found DONE signal: " ++ l ++ C.RESET)
      else Out.empty)
  else if startsWithPy l "BLOCKED|" then
    Out.line (C.YELLOW ++ iconOf "blocked" ++ " Task blocked" ++ C.RESET) ++ Out.toErr l ++
      (if cfg.debug then
        Out.line (C.DIM ++ "[DEBUG] Found BLOCKED signal: " ++ l ++ C.RESET)
      else Out.empty)
  else Out.empty

/-- The completion-signal loop at the end of `finalize`: scan the
accumulated text line by line, stripped, and for `DONE|`/`BLOCKED|`
prefixes print an indicator and forward the line to stderr. -/
def completion_signal_out (cfg : Config) (text : String) : Out :=
  (pySplit text "\n").foldl (fun acc l => acc ++ signal_line_out cfg l) Out.empty

/-- `finalize`.  `duration` is the wall-clock seconds the source computes
from `datetime.now()`; it only appears in the human-readable banner. -/
def finalize (cfg : Config) (s : PState) (duration : Nat) :
    Except String Out := do
  let closeOut := if s.in_text_block then Out.line "" else Out.empty
  let total_in ← pyAdd s.tokens_in s.tokens_cache_read
  let dbg1 :=
    if cfg.debug then
      Out.line (C.DIM ++ "[DEBUG] Finalizing: duration=" ++ toString duration ++
        "s, tools=" ++ toString s.tool_calls ++ ", tokens_in=" ++ total_in.pyStr ++
        ", tokens_out=" ++ s.tokens_out.pyStr ++ C.RESET)
    else Out.empty
  let banner :=
    Out.line ("\n" ++ C.DIM ++ String.mk (List.replicate 50 '─') ++ C.RESET) ++
    Out.line (C.DIM ++ "⏱  " ++ toString duration ++ "s  │  " ++
      "🔧 " ++ toString s.tool_calls ++ " tools  │  " ++
      "📥 " ++ total_in.pyStr ++ "  📤 " ++ s.tokens_out.pyStr ++ " tokens" ++ C.RESET)
  let summary :=
    Out.toErr ("🔧 " ++ toString s.tool_calls) ++
    Out.toErr ("📥 " ++ total_in.pyStr) ++
    Out.toErr ("📤 " ++ s.tokens_out.pyStr)
  let dbg2 :=
    if cfg.debug then
      Out.line (C.DIM ++ "[DEBUG] Checking for completion signals in accumulated text (" ++
        toString s.current_text.length ++ " chars)" ++ C.RESET)
    else Out.empty
  return closeOut ++ dbg1 ++ banner ++ summary ++ dbg2 ++
    completion_signal_out cfg s.current_text

/-- A `tool_use` part carrying a pending invocation. -/
def pendPart (name : String) : Json :=
  Json.obj [("tool", Json.str name),
            ("state", Json.obj [("status", Json.str "pending"), ("input", Json.obj [])])]

/-- A `tool_use` part carrying a completed invocation with its output. -/
def complPart (name out : String) : Json :=
  Json.obj [("tool", Json.str name),
            ("state", Json.obj [("status", Json.str "completed"), ("input", Json.obj []),
                                ("output", Json.str out), ("metadata", Json.obj [])])]

/-- A `tool_use` part with an arbitrary status string. -/
def usePart (name st out : String) : Json :=
  Json.obj [("tool", Json.str name),
            ("state", Json.obj [("status", Json.str st), ("input", Json.obj []),
                                ("output", Json.str out), ("metadata", Json.obj [])])]

/-- A `tool_start` part. -/
def startPart (name : String) : Json :=
  Json.obj [("tool", Json.str name), ("input", Json.obj [])]

/-- A `tool_finish` part. -/
def finishPart (out : String) : Json :=
  Json.obj [("output", Json.str out)]

/-- A stream event: `{"type": ty, "part": part}`. -/
def mkEvent (ty : String) (part : Json) : Json :=
  Json.obj [("type", Json.str ty), ("part", part)]

/-- A `step_finish` event with a `tokens` report. -/
def stepFinishEv (kvs : List (String × Json)) : Json :=
  mkEvent "step_finish" (Json.obj [("tokens", Json.obj kvs)])

/-- The shape the claims specify for a truncated tool result, as a list of
lines: the first `head = m / 2` input lines, one marker line stating
`omitted = len - head - tail`, then the last `tail = m - head - 1` input
lines. -/
def truncation_parts (lines : List String) (m : Nat) : List String :=
  lines.take (m / 2) ++
  [C.DIM ++ "    ... (" ++ toString (lines.length - m / 2 - (m - m / 2 - 1)) ++
     " lines omitted) ..." ++ C.RESET] ++
  lines.drop (lines.length - (m - m / 2 - 1))

/-- The lines (after Python stripping) of a text that the completion-signal
extractor forwards to the side channel, in textual order. -/
def signalLines (text : String) : List String :=
  (pySplit text "\n").filterMap fun l =>
    let l := pyStrip l
    if startsWithPy l "DONE|" || startsWithPy l "BLOCKED|" then some l else none

theorem handle_message_tool_use (cfg : Config) (s : PState) (kvs : List (String × Json)) :
    handle_message cfg s (mkEvent "tool_use" (Json.obj kvs)) =
      handle_tool_use cfg s (Json.obj kvs) := rfl

theorem handle_message_tool_start (cfg : Config) (s : PState) (kvs : List (String × Json)) :
    handle_message cfg s (mkEvent "tool_start" (Json.obj kvs)) =
      handle_tool_start cfg s (Json.obj kvs) := rfl

theorem handle_message_tool_finish (cfg : Config) (s : PState) (kvs : List (String × Json)) :
    handle_message cfg s (mkEvent "tool_finish" (Json.obj kvs)) =
      handle_tool_finish cfg s (Json.obj kvs) := rfl

theorem handle_message_step_finish (cfg : Config) (s : PState) (kvs : List (String × Json)) :
    handle_message cfg s (mkEvent "step_finish" (Json.obj kvs)) =
      handle_step_finish cfg s (Json.obj kvs) := rfl

@[simp] theorem Json.str_beq_str (a b : String) :
    (Json.str a == Json.str b) = (a == b) := rfl

@[simp] theorem Json.num_beq_num (a b : Int) :
    (Json.num a == Json.num b) = (a == b) := rfl

/-- A pending `tool_use` with no active tool prints the header and
increments the counter. -/
theorem tool_use_pending_fresh (cfg : Config) (s : PState) (name : String)
    (h : s.current_tool = none) :
    ∃ o, handle_tool_use cfg s (pendPart name) =
      .ok ({ s with in_text_block := false, tool_calls := s.tool_calls + 1,
                    current_tool := some (Json.str name) }, o) := by
  simp [handle_tool_use, pendPart, Json.hget, Json.asStr, h, format_tool_input,
    Json.isTruthy, bind, Except.bind, pure, Except.pure]

theorem tool_use_pending_same (cfg : Config) (s : PState) (name : String)
    (h : s.current_tool = some (Json.str name)) :
    ∃ o, handle_tool_use cfg s (pendPart name) =
      .ok ({ s with in_text_block := false }, o) := by
  simp [handle_tool_use, pendPart, Json.hget, Json.asStr, h, format_tool_input,
    Json.isTruthy, bind, Except.bind, pure, Except.pure]

theorem tool_use_compl_same (cfg : Config) (s : PState) (name out : String)
    (h : s.current_tool = some (Json.str name)) :
    ∃ o, handle_tool_use cfg s (complPart name out) =
      .ok ({ s with in_text_block := false, current_tool := none }, o) := by
  simp [handle_tool_use, complPart, Json.hget, Json.asStr, h, format_tool_input,
    Json.isTruthy, bind, Except.bind, pure, Except.pure]

theorem tool_use_compl_fresh (cfg : Config) (s : PState) (name out : String)
    (h : s.current_tool = none) :
    ∃ o, handle_tool_use cfg s (complPart name out) =
      .ok ({ s with in_text_block := false, tool_calls := s.tool_calls + 1,
                    current_tool := none }, o) := by
  simp [handle_tool_use, complPart, Json.hget, Json.asStr, h, format_tool_input,
    Json.isTruthy, bind, Except.bind, pure, Except.pure]

/-- `handle_tool_start` on a nonempty tool name (an empty name falls back
to `"unknown"` through Python's `or`). -/
theorem tool_start_state (cfg : Config) (s : PState) (name : String) (hn : name ≠ "") :
    ∃ o, handle_tool_start cfg s (startPart name) =
      .ok ({ s with in_text_block := false, tool_calls := s.tool_calls + 1,
                    current_tool := some (Json.str name) }, o) := by
  simp [handle_tool_start, startPart, Json.hget, Json.asStr, format_tool_input,
    Json.isTruthy, bind, Except.bind, pure, Except.pure, hn]

theorem tool_finish_state (cfg : Config) (s : PState) (out : String) :
    ∃ o, handle_tool_finish cfg s (finishPart out) =
      .ok ({ s with current_tool := none }, o) := by
  simp [handle_tool_finish, finishPart, Json.hget, Json.asStr,
    Json.isTruthy, bind, Except.bind, pure, Except.pure]

theorem hm_pendPart (cfg : Config) (s : PState) (name : String) :
    handle_message cfg s (mkEvent "tool_use" (pendPart name)) =
      handle_tool_use cfg s (pendPart name) := rfl

theorem hm_complPart (cfg : Config) (s : PState) (name out : String) :
    handle_message cfg s (mkEvent "tool_use" (complPart name out)) =
      handle_tool_use cfg s (complPart name out) := rfl

theorem hm_startPart (cfg : Config) (s : PState) (name : String) :
    handle_message cfg s (mkEvent "tool_start" (startPart name)) =
      handle_tool_start cfg s (startPart name) := rfl

theorem hm_finishPart (cfg : Config) (s : PState) (out : String) :
    handle_message cfg s (mkEvent "tool_finish" (finishPart out)) =
      handle_tool_finish cfg s (finishPart out) := rfl

/-- Any number of further pending `tool_use` events for the already-active
tool, then the completing event: the counter does not move again. -/
theorem pending_then_compl (cfg : Config) (name out : String) (n : Nat) :
    ∀ s : PState, s.current_tool = some (Json.str name) →
    ∃ s' o, processEvents cfg s
        (List.replicate n (mkEvent "tool_use" (pendPart name)) ++
         [mkEvent "tool_use" (complPart name out)]) = .ok (s', o) ∧
      s'.tool_calls = s.tool_calls := by
  induction n with
  | zero =>
    intro s h
    obtain ⟨o, ho⟩ := tool_use_compl_same cfg s name out h
    refine ⟨{ s with in_text_block := false, current_tool := none }, o ++ Out.empty, ?_, rfl⟩
    simp [processEvents, hm_complPart, ho, bind, Except.bind, pure, Except.pure]
  | succ k ih =>
    intro s h
    obtain ⟨o, ho⟩ := tool_use_pending_same cfg s name h
    obtain ⟨s', o', hrest, hcalls⟩ := ih { s with in_text_block := false } h
    refine ⟨s', o ++ o', ?_, hcalls⟩
    simp [List.replicate_succ, processEvents, hm_pendPart, ho, hrest, bind, Except.bind,
      pure, Except.pure]

/-- `handle_tool_start` always increments the counter by one, whatever the
name resolves to (an empty name falls back to `"unknown"`). -/
theorem tool_start_increments (cfg : Config) (s : PState) (name : String) :
    ∃ s' o, handle_tool_start cfg s (startPart name) = .ok (s', o) ∧
      s'.tool_calls = s.tool_calls + 1 := by
  by_cases hn : name = "" <;>
    simp [handle_tool_start, startPart, Json.hget, Json.asStr, format_tool_input,
      Json.isTruthy, bind, Except.bind, pure, Except.pure, hn]

/-- C1: every sequence of events describing one logical tool invocation —
a single combined `tool_use` (status completed), a run of pending
`tool_use` events followed by the completing one, or a
`tool_start`/`tool_finish` pair — increments `tool_calls` by exactly 1
(the dedupe guard compares the stored name, not the event count). -/
theorem tool_counter_increments_once (cfg : Config) (s : PState)
    (h : s.current_tool = none) (name out : String) (n : Nat) :
    (∃ s1 o, processEvents cfg s [mkEvent "tool_use" (complPart name out)] = .ok (s1, o) ∧
      s1.tool_calls = s.tool_calls + 1) ∧
    (∃ s2 o, processEvents cfg s
        (List.replicate (n + 1) (mkEvent "tool_use" (pendPart name)) ++
         [mkEvent "tool_use" (complPart name out)]) = .ok (s2, o) ∧
      s2.tool_calls = s.tool_calls + 1) ∧
    (∃ s3 o, processEvents cfg s
        [mkEvent "tool_start" (startPart name), mkEvent "tool_finish" (finishPart out)] =
      .ok (s3, o) ∧ s3.tool_calls = s.tool_calls + 1) := by
  refine ⟨?_, ?_, ?_⟩
  · obtain ⟨o, ho⟩ := tool_use_compl_fresh cfg s name out h
    use { s with in_text_block := false, tool_calls := s.tool_calls + 1, current_tool := none }
    use o ++ Out.empty
    refine ⟨?_, rfl⟩
    simp [processEvents, hm_complPart, ho, bind, Except.bind, pure, Except.pure]
  · obtain ⟨o, ho⟩ := tool_use_pending_fresh cfg s name h
    obtain ⟨s', o', hrest, hcalls⟩ :=
      pending_then_compl cfg name out n
        { s with in_text_block := false, tool_calls := s.tool_calls + 1,
                 current_tool := some (Json.str name) } rfl
    refine ⟨s', o ++ o', ?_, hcalls⟩
    simp [List.replicate_succ, processEvents, hm_pendPart, ho, hrest, bind, Except.bind,
      pure, Except.pure]
  · obtain ⟨s', o, ho, hc⟩ := tool_start_increments cfg s name
    obtain ⟨o', ho'⟩ := tool_finish_state cfg s' out
    use { s' with current_tool := none }
    use o ++ (o' ++ Out.empty)
    refine ⟨?_, hc⟩
    simp [processEvents, hm_startPart, hm_finishPart, ho, ho', bind, Except.bind,
      pure, Except.pure]

/-- C1 witness: two pending events and the completing event for one `bash`
invocation, from the initial state, yield `tool_calls = 1`. -/
theorem tool_counter_increments_once_witness :
    ∃ s2 o, processEvents ⟨100, false⟩ initState
        (List.replicate 2 (mkEvent "tool_use" (pendPart "bash")) ++
         [mkEvent "tool_use" (complPart "bash" "ok")]) = .ok (s2, o) ∧
      s2.tool_calls = initState.tool_calls + 1 :=
  (tool_counter_increments_once ⟨100, false⟩ initState rfl "bash" "ok" 1).2.1

/-- C2 (amended): for a result string that is neither empty nor
whitespace-only and `max ≥ 1`: at most `max` lines returns the input
unchanged; more than `max` lines returns the join of exactly `max` lines —
the first `max / 2` input lines, one omission marker stating
`len - head - tail`, and the last `max - head - 1` input lines. -/
theorem format_tool_result_spec (r : String) (m : Nat)
    (hr : isBlank r = false) (hm : 1 ≤ m) :
    ((pySplit r "\n").length ≤ m → format_tool_result r m = r) ∧
    (m < (pySplit r "\n").length →
      format_tool_result r m =
        String.intercalate "\n" (truncation_parts (pySplit r "\n") m) ∧
      (truncation_parts (pySplit r "\n") m).length = m) := by
  constructor
  · intro h
    simp [format_tool_result, hr, h]
  · intro h
    have h1 : ¬ (pySplit r "\n").length ≤ m := by omega
    constructor
    · rcases Nat.eq_zero_or_pos (m - m / 2 - 1) with h0 | hpos
      · simp [format_tool_result, hr, h1, truncation_parts, h0, List.drop_length]
      · simp [format_tool_result, hr, h1, truncation_parts, hpos]
    · have hle : m / 2 ≤ (pySplit r "\n").length := by omega
      have htl : m - m / 2 - 1 ≤ (pySplit r "\n").length := by omega
      simp [truncation_parts, List.length_take, List.length_drop]
      omega

/-- C2 counterexample: the whitespace-only, non-empty string `" "` has one
line and `1 ≤ max = 1`, yet `format_tool_result` does not return it
unchanged — the empty-output placeholder fires first. -/
theorem format_tool_result_blank_counterexample :
    (pySplit " " "\n").length ≤ 1 ∧ format_tool_result " " 1 ≠ " " := by
  constructor
  · decide
  · decide

/-- C2 witness: `"a\nb\nc"` at `max = 2` is truncated to the specified
two-line shape. -/
theorem format_tool_result_spec_witness :
    isBlank "a\nb\nc" = false ∧ 1 ≤ 2 ∧
    (2 < (pySplit "a\nb\nc" "\n").length →
      format_tool_result "a\nb\nc" 2 =
        String.intercalate "\n" (truncation_parts (pySplit "a\nb\nc" "\n") 2) ∧
      (truncation_parts (pySplit "a\nb\nc" "\n") 2).length = 2) :=
  ⟨by decide, by decide, (format_tool_result_spec "a\nb\nc" 2 (by decide) (by decide)).2⟩

@[simp] theorem Out.append_def (a b : Out) :
    a ++ b = ⟨a.stdout ++ b.stdout, a.stderr ++ b.stderr⟩ := rfl

@[simp] theorem Out.append_empty (o : Out) : o ++ Out.empty = o := by
  cases o
  simp [Out.empty]

@[simp] theorem Out.empty_append (o : Out) : Out.empty ++ o = o := by
  cases o
  simp [Out.empty]

@[simp] theorem Out.stdout_empty : Out.empty.stdout = [] := rfl

@[simp] theorem Out.stderr_empty : Out.empty.stderr = [] := rfl

@[simp] theorem Out.eta (o : Out) : (⟨o.stdout, o.stderr⟩ : Out) = o := rfl

/-- C3: with the configured maximum at 0, a completed tool's output is
rendered in full — `render_tool_output` is the identity, and both
completion paths print the whole (indented, dimmed) output with no
omission marker. -/
theorem unlimited_max_never_truncates (cfg : Config) (hc : cfg.max_lines = 0)
    (s : PState) (os : String) (h : isBlank os = false) :
    (∀ t : String, render_tool_output cfg.max_lines t = t) ∧
    handle_tool_finish cfg s (finishPart os) =
      .ok ({ s with current_tool := none }, Out.line (indent_dim os)) ∧
    (∀ name, s.current_tool = some (Json.str name) → s.in_text_block = false →
      handle_tool_use cfg s (complPart name os) =
        .ok ({ s with in_text_block := false, current_tool := none },
             Out.line (indent_dim os))) := by
  have hne : os ≠ "" := by
    intro he
    subst he
    simp [isBlank] at h
  refine ⟨?_, ?_, ?_⟩
  · intro t
    simp [render_tool_output, hc]
  · simp [handle_tool_finish, finishPart, Json.hget, Json.asStr, Json.isTruthy,
      tool_output_out, render_tool_output, hc, h, hne, bind, Except.bind, pure, Except.pure,
      Json.pyStr]
  · intro name h1 h2
    simp [handle_tool_use, complPart, Json.hget, Json.asStr, Json.isTruthy,
      format_tool_input, tool_output_out, render_tool_output, hc, h, hne, h1, h2,
      bind, Except.bind, pure, Except.pure, Json.pyStr]

/-- C3 witness: a two-line output at `max_lines = 0` is printed whole. -/
theorem unlimited_max_never_truncates_witness :
    handle_tool_finish ⟨0, false⟩ initState (finishPart "a\nb") =
      .ok ({ initState with current_tool := none }, Out.line (indent_dim "a\nb")) :=
  (unlimited_max_never_truncates ⟨0, false⟩ rfl initState "a\nb" (by decide)).2.1

@[simp] theorem Json.hget_obj (kvs : List (String × Json)) (k : String) (d : Json) :
    (Json.obj kvs).hget k d =
      .ok (((kvs.find? (fun p => p.1 == k)).map Prod.snd).getD d) := rfl

theorem hm_stepFinishEv (cfg : Config) (s : PState) (kvs : List (String × Json)) :
    handle_message cfg s (stepFinishEv kvs) =
      handle_step_finish cfg s (Json.obj [("tokens", Json.obj kvs)]) := rfl

/-- C4: token usage reports are last-write-wins: for any two non-empty
`step_finish` usage reports, applying both in sequence leaves every token
field equal to applying only the second; concretely, `{input:100,
output:20}` then `{input:150, output:40}` ends with `tokens_in = 150` and
`tokens_out = 40`. -/
theorem tokens_last_write_wins :
    (∀ (cfg : Config) (s : PState) (kvs1 kvs2 : List (String × Json)), kvs2 ≠ [] →
      ∀ (s1 s12 s2 : PState) (o1 o12 o2 : Out),
      handle_message cfg s (stepFinishEv kvs1) = .ok (s1, o1) →
      handle_message cfg s1 (stepFinishEv kvs2) = .ok (s12, o12) →
      handle_message cfg s (stepFinishEv kvs2) = .ok (s2, o2) →
      (s12.tokens_in = s2.tokens_in ∧ s12.tokens_out = s2.tokens_out ∧
       s12.tokens_reasoning = s2.tokens_reasoning ∧
       s12.tokens_cache_read = s2.tokens_cache_read)) ∧
    (∃ s' o, processEvents ⟨100, false⟩ initState
        [stepFinishEv [("input", Json.num 100), ("output", Json.num 20)],
         stepFinishEv [("input", Json.num 150), ("output", Json.num 40)]] = .ok (s', o) ∧
      s'.tokens_in = Json.num 150 ∧ s'.tokens_out = Json.num 40) := by
  constructor
  · intro cfg s kvs1 kvs2 h2 s1 s12 s2 o1 o12 o2 e1 e12 e2
    rw [hm_stepFinishEv] at e12 e2
    simp [handle_step_finish, Json.isTruthy, h2, bind, Except.bind, pure, Except.pure]
      at e12 e2
    cases hE : (((kvs2.find? (fun p => p.1 == "cache")).map Prod.snd).getD (Json.obj [])).hget
        "read" (Json.num 0) with
    | error e =>
      rw [hE] at e2
      simp at e2
    | ok v =>
      rw [hE] at e12 e2
      simp at e12 e2
      obtain ⟨hs12, -⟩ := e12
      obtain ⟨hs2, -⟩ := e2
      subst hs12
      subst hs2
      simp
  · exact ⟨{ initState with tokens_in := Json.num 150, tokens_out := Json.num 40 },
      Out.empty, rfl, rfl, rfl⟩

/-- C4 witness: the general law applied at the concrete 100/20-then-150/40
instance, every hypothesis discharged by computation. -/
theorem tokens_last_write_wins_witness :
    ({ initState with tokens_in := Json.num 150, tokens_out := Json.num 40 } : PState).tokens_in =
      ({ initState with tokens_in := Json.num 150, tokens_out := Json.num 40 } : PState).tokens_in ∧
    ({ initState with tokens_in := Json.num 150, tokens_out := Json.num 40 } : PState).tokens_out =
      ({ initState with tokens_in := Json.num 150, tokens_out := Json.num 40 } : PState).tokens_out ∧
    ({ initState with tokens_in := Json.num 150, tokens_out := Json.num 40 } : PState).tokens_reasoning =
      ({ initState with tokens_in := Json.num 150, tokens_out := Json.num 40 } : PState).tokens_reasoning ∧
    ({ initState with tokens_in := Json.num 150, tokens_out := Json.num 40 } : PState).tokens_cache_read =
      ({ initState with tokens_in := Json.num 150, tokens_out := Json.num 40 } : PState).tokens_cache_read :=
  tokens_last_write_wins.1 ⟨100, false⟩ initState
    [("input", Json.num 100), ("output", Json.num 20)]
    [("input", Json.num 150), ("output", Json.num 40)] (List.cons_ne_nil _ _)
    { initState with tokens_in := Json.num 100, tokens_out := Json.num 20 }
    { initState with tokens_in := Json.num 150, tokens_out := Json.num 40 }
    { initState with tokens_in := Json.num 150, tokens_out := Json.num 40 }
    Out.empty Out.empty Out.empty rfl rfl rfl

@[simp] theorem Out.line_stdout (s : String) : (Out.line s).stdout = [s ++ "\n"] := rfl
@[simp] theorem Out.line_stderr (s : String) : (Out.line s).stderr = [] := rfl
@[simp] theorem Out.chunk_stdout (s : String) : (Out.chunk s).stdout = [s] := rfl
@[simp] theorem Out.chunk_stderr (s : String) : (Out.chunk s).stderr = [] := rfl
@[simp] theorem Out.toErr_stdout (s : String) : (Out.toErr s).stdout = [] := rfl
@[simp] theorem Out.toErr_stderr (s : String) : (Out.toErr s).stderr = [s] := rfl

theorem signal_line_out_stderr (cfg : Config) (l : String) :
    (signal_line_out cfg l).stderr =
      if startsWithPy (pyStrip l) "DONE|" || startsWithPy (pyStrip l) "BLOCKED|" then
        [pyStrip l]
      else [] := by
  rcases hd : startsWithPy (pyStrip l) "DONE|" <;>
    rcases hb : startsWithPy (pyStrip l) "BLOCKED|" <;>
      cases hc : cfg.debug <;>
        simp [signal_line_out, hd, hb, hc]

theorem foldl_signal_stderr (cfg : Config) (ls : List String) :
    ∀ acc : Out, (ls.foldl (fun a l => a ++ signal_line_out cfg l) acc).stderr =
      acc.stderr ++ ls.filterMap (fun l =>
        if startsWithPy (pyStrip l) "DONE|" || startsWithPy (pyStrip l) "BLOCKED|" then
          some (pyStrip l)
        else none) := by
  induction ls with
  | nil => intro acc; simp
  | cons x xs ih =>
    intro acc
    simp only [List.foldl_cons, List.filterMap_cons]
    rw [ih]
    rcases h : startsWithPy (pyStrip x) "DONE|" || startsWithPy (pyStrip x) "BLOCKED|" <;>
      simp [signal_line_out_stderr, h]

theorem completion_signal_out_stderr (cfg : Config) (t : String) :
    (completion_signal_out cfg t).stderr = signalLines t := by
  unfold completion_signal_out signalLines
  rw [foldl_signal_stderr]
  simp

theorem finalize_stderr (cfg : Config) (s : PState) (d : Nat) (a b : Int)
    (hin : s.tokens_in = Json.num a) (hcr : s.tokens_cache_read = Json.num b) :
    ∃ o, finalize cfg s d = .ok o ∧
      o.stderr = ("🔧 " ++ toString s.tool_calls) :: ("📥 " ++ toString (a + b)) ::
        ("📤 " ++ s.tokens_out.pyStr) :: signalLines s.current_text := by
  have hadd : pyAdd s.tokens_in s.tokens_cache_read = .ok (Json.num (a + b)) := by
    rw [hin, hcr]
    rfl
  unfold finalize
  rw [hadd]
  refine ⟨_, rfl, ?_⟩
  cases hb : s.in_text_block <;> cases hc : cfg.debug <;>
    simp [hb, hc, completion_signal_out_stderr, Json.pyStr, pyRepr, bind, Except.bind,
      pure, Except.pure]

/-- C5: at finalize, every stripped line of the accumulated text with a
`DONE|` or `BLOCKED|` prefix is forwarded to the side channel after the
three summary lines, in textual order and with nothing else; for the text
`"hello\nDONE|ok\nworld\nBLOCKED|wait\n"` exactly `DONE|ok` then
`BLOCKED|wait` are forwarded. -/
theorem finalize_forwards_signal_lines :
    (∀ (cfg : Config) (s : PState) (d : Nat) (a b : Int),
      s.tokens_in = Json.num a → s.tokens_cache_read = Json.num b →
      ∃ o, finalize cfg s d = .ok o ∧ o.stderr.drop 3 = signalLines s.current_text) ∧
    signalLines "hello\nDONE|ok\nworld\nBLOCKED|wait\n" = ["DONE|ok", "BLOCKED|wait"] ∧
    (∃ o, finalize ⟨100, false⟩
        { initState with current_text := "hello\nDONE|ok\nworld\nBLOCKED|wait\n" } 0 = .ok o ∧
      o.stderr.drop 3 = ["DONE|ok", "BLOCKED|wait"]) := by
  have main : ∀ (cfg : Config) (s : PState) (d : Nat) (a b : Int),
      s.tokens_in = Json.num a → s.tokens_cache_read = Json.num b →
      ∃ o, finalize cfg s d = .ok o ∧ o.stderr.drop 3 = signalLines s.current_text := by
    intro cfg s d a b hin hcr
    obtain ⟨o, ho, hs⟩ := finalize_stderr cfg s d a b hin hcr
    exact ⟨o, ho, by simp [hs]⟩
  refine ⟨main, by decide, ?_⟩
  obtain ⟨o, ho, hs⟩ :=
    main ⟨100, false⟩ { initState with current_text := "hello\nDONE|ok\nworld\nBLOCKED|wait\n" }
      0 0 0 rfl rfl
  refine ⟨o, ho, ?_⟩
  rw [hs]
  decide

/-- C5 witness: the general forwarding law at a concrete state. -/
theorem finalize_forwards_signal_lines_witness :
    ∃ o, finalize ⟨100, false⟩
        { initState with current_text := "hello\nDONE|ok\nworld\nBLOCKED|wait\n" } 5 = .ok o ∧
      o.stderr.drop 3 =
        signalLines ({ initState with
          current_text := "hello\nDONE|ok\nworld\nBLOCKED|wait\n" } : PState).current_text :=
  finalize_forwards_signal_lines.1 ⟨100, false⟩
    { initState with current_text := "hello\nDONE|ok\nworld\nBLOCKED|wait\n" } 5 0 0 rfl rfl

/-- C6: `finalize` writes exactly three summary lines to the side channel
— tool-call count, then total input tokens, then total output tokens, each
with its fixed icon — before the completion-signal lines, and the reported
input total is `tokens_in + tokens_cache_read`. -/
theorem finalize_summary_lines (cfg : Config) (s : PState) (d : Nat) (a b c : Int)
    (hin : s.tokens_in = Json.num a) (hcr : s.tokens_cache_read = Json.num b)
    (hout : s.tokens_out = Json.num c) :
    ∃ o, finalize cfg s d = .ok o ∧
      o.stderr.take 3 = ["🔧 " ++ toString s.tool_calls, "📥 " ++ toString (a + b),
                         "📤 " ++ toString c] ∧
      o.stderr = o.stderr.take 3 ++ signalLines s.current_text := by
  obtain ⟨o, ho, hs⟩ := finalize_stderr cfg s d a b hin hcr
  refine ⟨o, ho, ?_, ?_⟩ <;> simp [hs, hout, Json.pyStr, pyRepr]

/-- C6 witness: the summary-lines law at the initial state. -/
theorem finalize_summary_lines_witness :
    ∃ o, finalize ⟨100, false⟩ initState 3 = .ok o ∧
      o.stderr.take 3 = ["🔧 " ++ toString initState.tool_calls,
        "📥 " ++ toString ((0 : Int) + 0), "📤 " ++ toString (0 : Int)] ∧
      o.stderr = o.stderr.take 3 ++ signalLines initState.current_text :=
  finalize_summary_lines ⟨100, false⟩ initState 3 0 0 0 rfl rfl rfl

/-- C7: a line that starts with `\x7b` but fails to parse as JSON is
rendered as a single dimmed plain-text line, raises nothing, emits no
side-channel line, and leaves the processor state unchanged. -/
theorem parse_failure_graceful (cfg : Config) (hdbg : cfg.debug = false)
    (parse : String → Option Json) (s : PState) (line : String)
    (hb : startsWithPy (pyStrip line) "\x7b" = true)
    (hp : parse (pyStrip line) = none) :
    process_line cfg parse s line =
      .ok (s, Out.line (C.DIM ++ pyStrip line ++ C.RESET)) := by
  have h0 : pyStrip line ≠ "" := by
    intro h
    rw [h] at hb
    simp [startsWithPy] at hb
  unfold process_line
  simp [h0, hb, hp, hdbg, bind, Except.bind, pure, Except.pure]

/-- C7 witness: the truncated line `\x7b"type":` with a failing parser. -/
theorem parse_failure_graceful_witness :
    process_line ⟨100, false⟩ (fun _ => none) initState "\x7b\"type\":" =
      .ok (initState, Out.line (C.DIM ++ pyStrip "\x7b\"type\":" ++ C.RESET)) :=
  parse_failure_graceful ⟨100, false⟩ rfl (fun _ => none) initState "\x7b\"type\":"
    (by decide) rfl

/-- C8: the state type itself allows at most one open text block (a
`Bool`) and at most one active tool (an `Option`); beyond that, whenever a
text block is open, handling a `tool_use` event (any status) or a
`tool_start` event first emits the terminating bare newline — the first
stdout chunk — and leaves the text-block flag cleared; both handlers
succeed on these events. -/
theorem tool_event_closes_text_block (cfg : Config) (s : PState)
    (h : s.in_text_block = true) (name st out : String) :
    (∀ s' o, handle_tool_use cfg s (usePart name st out) = .ok (s', o) →
      o.stdout.head? = some "\n" ∧ s'.in_text_block = false) ∧
    (∀ s' o, handle_tool_start cfg s (startPart name) = .ok (s', o) →
      o.stdout.head? = some "\n" ∧ s'.in_text_block = false) ∧
    (∃ s' o, handle_tool_use cfg s (usePart name st out) = .ok (s', o)) ∧
    (∃ s' o, handle_tool_start cfg s (startPart name) = .ok (s', o)) := by
  refine ⟨?_, ?_, ?_, ?_⟩
  · intro s' o hr
    simp [handle_tool_use, usePart, Json.asStr, Json.isTruthy, format_tool_input, h,
      bind, Except.bind, pure, Except.pure] at hr
    split at hr <;> split at hr <;>
      (simp only [Except.ok.injEq, Prod.mk.injEq] at hr
       obtain ⟨h1, h2⟩ := hr
       subst h1
       subst h2
       exact ⟨rfl, rfl⟩)
  · intro s' o hr
    simp [handle_tool_start, startPart, Json.asStr, Json.isTruthy, format_tool_input, h,
      bind, Except.bind, pure, Except.pure] at hr
    split at hr <;>
      (simp only [Except.ok.injEq, Prod.mk.injEq] at hr
       obtain ⟨h1, h2⟩ := hr
       subst h1
       subst h2
       exact ⟨rfl, rfl⟩)
  · simp [handle_tool_use, usePart, Json.asStr, Json.isTruthy, format_tool_input, h,
      bind, Except.bind, pure, Except.pure]
    split <;> split <;> exact ⟨_, _, rfl⟩
  · simp [handle_tool_start, startPart, Json.asStr, Json.isTruthy, format_tool_input, h,
      bind, Except.bind, pure, Except.pure]
    split <;> exact ⟨_, _, rfl⟩

/-- C8 witness: a completed `tool_use` while a text block is open. -/
theorem tool_event_closes_text_block_witness :
    ∃ s' o, handle_tool_use ⟨100, false⟩ { initState with in_text_block := true }
        (usePart "bash" "completed" "ok") = .ok (s', o) :=
  (tool_event_closes_text_block ⟨100, false⟩ { initState with in_text_block := true } rfl
    "bash" "completed" "ok").2.2.1

/-- C9 counterexample: a tool that finishes without error and with empty
output renders nothing at all — in particular not the dimmed `(empty)`
placeholder the claim requires. -/
theorem empty_output_no_placeholder :
    handle_tool_finish ⟨100, false⟩ initState (finishPart "") =
      .ok (initState, Out.empty) ∧ Out.empty.stdout = [] := ⟨rfl, rfl⟩

/-- C9 (amended): `format_tool_result` does map empty/whitespace-only
input to the fixed dimmed `(empty)` placeholder, but the completion
handlers never render it: when a tool finishes without error and its
output is empty or whitespace-only, they print nothing. -/
theorem empty_output_renders_nothing (cfg : Config) (s : PState) (os : String) (m : Nat)
    (h : isBlank os = true) :
    format_tool_result os m = C.DIM ++ "(empty)" ++ C.RESET ∧
    handle_tool_finish cfg s (finishPart os) =
      .ok ({ s with current_tool := none }, Out.empty) ∧
    (∀ name, s.current_tool = some (Json.str name) → s.in_text_block = false →
      handle_tool_use cfg s (complPart name os) =
        .ok ({ s with in_text_block := false, current_tool := none }, Out.empty)) := by
  refine ⟨?_, ?_, ?_⟩
  · simp [format_tool_result, h]
  · simp [handle_tool_finish, finishPart, Json.asStr, Json.isTruthy, tool_output_out,
      h, bind, Except.bind, pure, Except.pure, Json.pyStr]
  · intro name h1 h2
    simp [handle_tool_use, complPart, Json.asStr, Json.isTruthy, format_tool_input,
      tool_output_out, h, h1, h2, bind, Except.bind, pure, Except.pure, Json.pyStr,
      Out.empty]

/-- C9 witness: the whitespace-only output `" "`. -/
theorem empty_output_renders_nothing_witness :
    format_tool_result " " 12 = C.DIM ++ "(empty)" ++ C.RESET ∧
    handle_tool_finish ⟨100, false⟩ initState (finishPart " ") =
      .ok ({ initState with current_tool := none }, Out.empty) ∧
    (∀ name, initState.current_tool = some (Json.str name) →
      initState.in_text_block = false →
      handle_tool_use ⟨100, false⟩ initState (complPart name " ") =
        .ok ({ initState with in_text_block := false, current_tool := none }, Out.empty)) :=
  empty_output_renders_nothing ⟨100, false⟩ initState " " 12 (by decide)

/-- C10 counterexample: the line `[1, 2]` — valid JSON with a non-object
top-level value — does not raise: it never reaches the JSON path (it does
not start with a brace) and is rendered as a dimmed plain-text line with
the state unchanged, even under a parser that would happily parse it. -/
theorem non_object_line_renders_dimmed :
    process_line ⟨100, false⟩ (fun _ => some (Json.arr [Json.num 1, Json.num 2]))
      initState "[1, 2]" =
      .ok (initState, Out.line (C.DIM ++ "[1, 2]" ++ C.RESET)) := rfl

/-- C10 (amended): `handle_message` itself is partial — applied to any
parsed value that is not an object it raises `AttributeError` (`.get` on a
non-dict) — but `process_line` never feeds it one from the stream: a line
that does not start with a brace (such as `[1, 2]`, a quoted string, or a
plain number) takes the plain-text path, rendered dimmed with no
exception, no side-channel line, and no state change. -/
theorem non_object_values_never_reach_handler (cfg : Config) (hdbg : cfg.debug = false)
    (parse : String → Option Json) (s : PState) :
    (∀ j : Json, (∀ kvs, j ≠ Json.obj kvs) →
      handle_message cfg s j = .error "AttributeError") ∧
    (∀ l : String, startsWithPy (pyStrip l) "\x7b" = false → pyStrip l ≠ "" →
      strContainsSub (pyLower (pyStrip l)) "you\x27ve hit your limit" = false →
      strContainsSub (pyLower (pyStrip l)) "rate limit" = false →
      strContainsSub (pyLower (pyStrip l)) "error" = false →
      process_line cfg parse s l =
        .ok (s, Out.line (C.DIM ++ pyStrip l ++ C.RESET))) := by
  constructor
  · intro j hj
    cases j <;> first
      | rfl
      | exact absurd rfl (hj _)
  · intro l hb hne hs1 hs2 hs3
    unfold process_line
    simp [hb, hne, hs1, hs2, hs3, hdbg, bind, Except.bind, pure, Except.pure]

/-- C10 witness: the array value and the array-looking plain line. -/
theorem non_object_values_never_reach_handler_witness :
    handle_message ⟨100, false⟩ initState (Json.arr [Json.num 1, Json.num 2]) =
      .error "AttributeError" ∧
    process_line ⟨100, false⟩ (fun _ => some (Json.arr [Json.num 1, Json.num 2]))
      initState "[1, 2]" =
      .ok (initState, Out.line (C.DIM ++ pyStrip "[1, 2]" ++ C.RESET)) :=
  ⟨(non_object_values_never_reach_handler ⟨100, false⟩ rfl
      (fun _ => some (Json.arr [Json.num 1, Json.num 2])) initState).1 _
      (fun _ h => Json.noConfusion h),
   (non_object_values_never_reach_handler ⟨100, false⟩ rfl
      (fun _ => some (Json.arr [Json.num 1, Json.num 2])) initState).2 "[1, 2]"
      (by decide) (by decide) (by decide) (by decide) (by decide)⟩
